import Mathlib

/-!
Shallow embedding of the `common-validation` library (src/unnamed/part_000,
compiled form src/dist/index.js): a runtime value-validation engine for
JavaScript values.  JavaScript values are modelled by the inductive `JSValue`;
JavaScript numbers (IEEE-754 float64) are idealised as exact rationals plus
NaN and the two infinities (`JSNumber`); every concrete value appearing in the
claims is exactly representable, so the idealisation is faithful on them.
Side effects are made explicit: the mutable validator registry is threaded as
a state value, warnings emitted through the logging sink are collected in a
list, and a thrown exception — the library's `ValidationError`, or the
engine `TypeError` that `checkType` runs into on registry keys inherited
from `Object.prototype` — is an `Except.error` result.
-/

namespace CommonValidation

/-- Model of a JavaScript number: NaN, the two infinities, or a finite value.
Finite float64 values are idealised as exact rationals (every float64 is a
rational with a power-of-two denominator, hence has a terminating decimal
expansion).  Negative zero is identified with zero. -/
inductive JSNumber where
  | nan
  | posInf
  | negInf
  | finite (q : ℚ)
  deriving DecidableEq, Repr

/-- Smallest `k` with `d ∣ 10^k`, when one exists — i.e. the number of
decimal digits needed after the point for a reduced fraction with
denominator `d`.  When it exists (`d = 2^a * 5^b`), it is `max a b ≤ d`,
so searching `k ≤ d` is exhaustive. -/
def decExp (d : Nat) : Option Nat :=
  (List.range (d + 1)).find? (fun k => 10 ^ k % d == 0)

/-- Left-pad a digit string with zeros up to the given length. -/
def padZeros (s : String) (len : Nat) : String :=
  String.mk (List.replicate (len - s.length) '0') ++ s

/-- Decimal rendering of a nonnegative rational with terminating decimal
expansion, in the canonical form produced by JavaScript `Number.prototype
.toString` on such values: no leading zeros, no trailing fractional zeros,
no decimal point for integers.  (JavaScript switches to exponent notation for
magnitudes at or above 1e21 or below 1e-6; that regime is not exercised by
any value in this development and is not modelled.)  Rationals without a
terminating decimal expansion do not arise as float64 idealisations; they
render as a fixed marker. -/
def ratToStringNonneg (q : ℚ) : String :=
  match decExp q.den with
  | none => "<nondecimal>"
  | some k =>
    let m := (q.num * ((10 ^ k : Nat) : Int) / (q.den : Int)).toNat
    if k = 0 then Nat.repr m
    else Nat.repr (m / 10 ^ k) ++ "." ++ padZeros (Nat.repr (m % 10 ^ k)) k

/-- JavaScript `Number.prototype.toString` (radix 10) on the number model. -/
def numToString : JSNumber → String
  | .nan => "NaN"
  | .posInf => "Infinity"
  | .negInf => "-Infinity"
  | .finite q => if q < 0 then "-" ++ ratToStringNonneg (-q) else ratToStringNonneg q

/-- Characters treated as leading whitespace by JavaScript `parseFloat`. -/
def jsWhitespace (c : Char) : Bool :=
  c == ' ' || c == '\t' || c == '\n' || c == '\r' || c == '\x0b' || c == '\x0c' || c == '\xa0'

/-- Numeric value of a list of decimal digit characters. -/
def digitsVal (ds : List Char) : Nat :=
  ds.foldl (fun acc c => 10 * acc + (c.toNat - '0'.toNat)) 0

/-- JavaScript `parseFloat`: trim leading whitespace, then take the longest
prefix that is a valid decimal literal (optional sign, digits with optional
decimal point, optional exponent, or `Infinity`); NaN when no prefix matches.
The parsed value is kept exact rather than rounded to float64. -/
def parseFloat (s : String) : JSNumber :=
  let cs := s.data.dropWhile jsWhitespace
  let signed : Bool × List Char :=
    match cs with
    | '-' :: rest => (true, rest)
    | '+' :: rest => (false, rest)
    | _ => (false, cs)
  let neg := signed.1
  let cs1 := signed.2
  if List.isPrefixOf "Infinity".data cs1 then
    if neg then .negInf else .posInf
  else
    let ip := cs1.span Char.isDigit
    let intDs := ip.1
    let fp :=
      match ip.2 with
      | '.' :: rest => rest.span Char.isDigit
      | _ => ([], ip.2)
    let fracDs := fp.1
    if intDs.isEmpty && fracDs.isEmpty then .nan
    else
      let mantissa := digitsVal (intDs ++ fracDs)
      let expVal : Int :=
        match fp.2 with
        | 'e' :: r3 | 'E' :: r3 =>
          let es : Bool × List Char :=
            match r3 with
            | '-' :: rest => (true, rest)
            | '+' :: rest => (false, rest)
            | _ => (false, r3)
          let expDs := (es.2.span Char.isDigit).1
          if expDs.isEmpty then 0
          else if es.1 then -(digitsVal expDs : Int) else (digitsVal expDs : Int)
        | _ => 0
      let exp10 : Int := expVal - fracDs.length
      let mag : ℚ :=
        if 0 ≤ exp10 then mkRat ((mantissa * 10 ^ exp10.toNat : Nat) : Int) 1
        else mkRat (mantissa : Int) (10 ^ (-exp10).toNat)
      .finite (if neg then -mag else mag)

/-- A class (or plain function) object: `id` models reference identity
(distinct function objects carry distinct ids), `name` is the function name,
`src` its source text (what JavaScript string coercion yields on functions),
and `ancestors` lists the ids of its strict superclasses, i.e. exactly the
classes `P` with `c.prototype instanceof P` true — the explicit
"ancestors-of" rendering of the prototype chain. -/
structure ClassV where
  id : Nat
  name : String
  src : String
  ancestors : List Nat
  deriving DecidableEq, Repr

/-- Model of a JavaScript value as consumed by this library.  `obj instOf`
is a non-plain or plain object, carrying the ids of the user classes whose
prototype occurs in its prototype chain (empty for plain object literals). -/
inductive JSValue where
  | undef
  | null
  | bool (b : Bool)
  | num (n : JSNumber)
  | str (s : String)
  | func (c : ClassV)
  | arr (elems : List JSValue)
  | obj (instOf : List Nat)

/-- Lodash predicate `_.isArray`. -/
def Lodash.isArray : JSValue → Bool
  | .arr _ => true
  | _ => false

/-- Lodash predicate `_.isBoolean`. -/
def Lodash.isBoolean : JSValue → Bool
  | .bool _ => true
  | _ => false

/-- Lodash predicate `_.isFunction`. -/
def Lodash.isFunction : JSValue → Bool
  | .func _ => true
  | _ => false

/-- Lodash predicate `_.isNumber`. -/
def Lodash.isNumber : JSValue → Bool
  | .num _ => true
  | _ => false

/-- Lodash predicate `_.isPlainObject`: an object created by the `Object`
constructor or a literal, i.e. with no user class in its prototype chain. -/
def Lodash.isPlainObject : JSValue → Bool
  | .obj instOf => instOf.isEmpty
  | _ => false

/-- Lodash predicate `_.isString`. -/
def Lodash.isString : JSValue → Bool
  | .str _ => true
  | _ => false

/-- Lodash predicate `_.isNil`: `null` or `undefined`. -/
def Lodash.isNil : JSValue → Bool
  | .undef => true
  | .null => true
  | _ => false

mutual

/-- Rendering of an array element inside `Array.prototype.toString`:
`null` and `undefined` render as the empty string. -/
def jsElemString : JSValue → String
  | .undef => ""
  | .null => ""
  | .bool b => if b then "true" else "false"
  | .num n => numToString n
  | .str s => s
  | .func c => c.src
  | .arr l => jsArrJoin l
  | .obj _ => "[object Object]"

/-- `Array.prototype.toString`: elements rendered and joined with commas. -/
def jsArrJoin : List JSValue → String
  | [] => ""
  | [v] => jsElemString v
  | v :: rest => jsElemString v ++ "," ++ jsArrJoin rest

end

/-- JavaScript string coercion (the `ToString` abstract operation) on the
value model, as performed by template-literal interpolation in the source. -/
def jsToString : JSValue → String
  | .undef => "undefined"
  | .null => "null"
  | .bool b => if b then "true" else "false"
  | .num n => numToString n
  | .str s => s
  | .func c => c.src
  | .arr l => jsArrJoin l
  | .obj _ => "[object Object]"

/-- JavaScript truthiness of a value. -/
def truthy : JSValue → Bool
  | .undef => false
  | .null => false
  | .bool b => b
  | .num .nan => false
  | .num (.finite q) => decide (q ≠ 0)
  | .num _ => true
  | .str s => decide (s ≠ "")
  | .func _ => true
  | .arr _ => true
  | .obj _ => true

/-- The `instanceof` operator with a class right-hand side: whether the
class's prototype occurs in the value's prototype chain.  Primitive values
are never instances; a function value's own instance chain (through
`Function.prototype`) contains no user class. -/
def instanceOfB (value : JSValue) (c : ClassV) : Bool :=
  match value with
  | .obj instOf => instOf.contains c.id
  | _ => false

/-- An entry of the validator registry: display name and predicate
(source field names `name` and `function`). -/
structure Validator where
  name : String
  function : JSValue → Bool

/-- The mutable `validators` dictionary, threaded explicitly as state.  A
JavaScript object used as a string-keyed map is modelled as an association
list where lookup takes the leftmost binding, so that property assignment is
modelled by prepending. -/
abbrev Registry := List (String × Validator)

/-- Own-property lookup `validators[type]` for registered keys. -/
def lookupValidator (st : Registry) (type : String) : Option Validator :=
  st.lookup type

/-- Property names every plain object literal inherits from
`Object.prototype` (the ES2020 standard members plus the Annex B legacy
accessors): the JavaScript `in` operator finds these on the `validators`
object even though they are not own keys. -/
def objectPrototypeKeys : List String :=
  ["constructor", "hasOwnProperty", "isPrototypeOf", "propertyIsEnumerable",
   "toLocaleString", "toString", "valueOf", "__proto__",
   "__defineGetter__", "__defineSetter__", "__lookupGetter__", "__lookupSetter__"]

/-- The key test `type in validators`: the `in` operator walks the prototype
chain, so it is true for own (registered) keys and also for the properties
inherited from `Object.prototype`. -/
def validatorsHasProp (st : Registry) (s : String) : Bool :=
  (lookupValidator st s).isSome || objectPrototypeKeys.contains s

/-- Source `isAlphanumeric`: true if parsing the value (after JavaScript
string coercion, as `parseFloat` performs on non-strings) as a float
succeeds, or the value is a string. -/
def isAlphanumeric (value : JSValue) : Bool :=
  !(parseFloat (jsToString value) == JSNumber.nan) || Lodash.isString value

/-- The initial contents of the `validators` dictionary. -/
def initialValidators : Registry :=
  [ ("alphanumeric", ⟨"alphanumeric", isAlphanumeric⟩),
    ("array", ⟨"array", Lodash.isArray⟩),
    ("boolean", ⟨"boolean", Lodash.isBoolean⟩),
    ("function", ⟨"function", Lodash.isFunction⟩),
    ("number", ⟨"number", Lodash.isNumber⟩),
    ("object", ⟨"object", Lodash.isPlainObject⟩),
    ("string", ⟨"string", Lodash.isString⟩) ]

/-- Source helper `namePrefix`: `"<name>: "`, or `""` when the name is
absent or empty (JavaScript falsiness of strings). -/
def namePfx : Option String → String
  | none => ""
  | some s => if s = "" then "" else s ++ ": "

/-- Source helper `valueType`: a callable value is rendered by its function
name, any other value is rendered as itself. -/
def valueType : JSValue → JSValue
  | .func c => .str c.name
  | v => v

/-- A thrown `ValidationError`, carrying its precomputed message. -/
structure ValidationError where
  message : String
  deriving DecidableEq, Repr

/-- A thrown JavaScript exception: either the library's own
`ValidationError`, or an engine `TypeError` — reached in `checkType` when
the string key is only an inherited `Object.prototype` property, so
`validators[type].function` is `undefined` and calling it throws. -/
inductive JsThrow where
  | validationError (e : ValidationError)
  | typeError (msg : String)
  deriving DecidableEq, Repr

/-- Static `ValidationError.getMessage`: pure message construction from
(value, expected-type description, optional name). -/
def ValidationError.getMessage (value : JSValue) (expectedType : String)
    (name : Option String) : String :=
  namePfx name ++ "Expected " ++ expectedType ++ ", " ++ jsToString (valueType value) ++ " given."

/-- Source `setValidator`: registers/overwrites the validator for `type`;
an omitted display name defaults to the type key. -/
def setValidator (st : Registry) (type : String) (validator : JSValue → Bool)
    (name : Option String) : Registry :=
  (type, ⟨name.getD type, validator⟩) :: st

/-- A `defaultValue` argument: either a plain value or a callable that
computes the default from the invalid value.  (Callable values passed as
defaults are embedded through the `fn` constructor.) -/
inductive DefaultV where
  | val (v : JSValue)
  | fn (f : JSValue → JSValue)

/-- Truthiness of a `defaultValue` argument: functions are always truthy. -/
def dvTruthy : DefaultV → Bool
  | .val v => truthy v
  | .fn _ => true

/-- The `defaultValue === undefined` test in `checkType`. -/
def dvIsUndefined : DefaultV → Bool
  | .val .undef => true
  | _ => false

/-- Resolution of a default: a callable default is applied to the invalid
value, a plain default is used as-is. -/
def resolveDefault (d : DefaultV) (value : JSValue) : JSValue :=
  match d with
  | .val v => v
  | .fn f => f value

/-- The `options` parameter of `check`. -/
structure CheckOptions where
  defaultValue : Option DefaultV
  warnIf : Option (JSValue → Bool)

/-- The observable outcome of a validation call: the returned value or the
thrown exception, the warnings emitted through the logging sink
(message strings, in order), and the registry state afterwards. -/
structure Outcome where
  result : Except JsThrow JSValue
  warnings : List String
  state : Registry

/-- Source `check`: primary entry point.  The registry is threaded through
untouched (the source body never reads or writes `validators`).  Note the
branch condition `if (options?.defaultValue)` tests JavaScript truthiness of
the provided default. -/
def check (st : Registry) (value : JSValue) (validator : JSValue → Bool)
    (expected : String) (name : Option String) (options : Option CheckOptions) :
    Outcome :=
  if validator value then ⟨.ok value, [], st⟩
  else
    match options.bind (fun o => o.defaultValue) with
    | some dv =>
      if dvTruthy dv then
        let defaultValue := resolveDefault dv value
        let shouldWarn := (options.bind (fun o => o.warnIf)).getD (fun x => !(Lodash.isNil x))
        let warnings :=
          if shouldWarn value then [ValidationError.getMessage value expected name] else []
        ⟨.ok defaultValue, warnings, st⟩
      else ⟨.error (.validationError ⟨ValidationError.getMessage value expected name⟩), [], st⟩
    | none => ⟨.error (.validationError ⟨ValidationError.getMessage value expected name⟩), [], st⟩

/-- Result of the "Validate" section of `checkType`'s body: the early
`return false` when `type in validators` fails, a `TypeError` when the key
is found on the prototype chain only (so `validators[type]` is the inherited
`Object.prototype` member, `.function` on it is `undefined`, and
`validate(value)` throws), or the computed `valid` / `expectedType` pair. -/
inductive Dispatch where
  | earlyFalse
  | typeError (msg : String)
  | resolved (valid : Bool) (expectedType : String)

/-- Source `checkType`: legacy entry point.  Dispatches on the runtime shape
of `type` (`isClass(type)` / `_.isString(type)`); a string key absent both
from the registry and from `Object.prototype` returns the JavaScript
boolean `false` with no other effect.  The warning message interpolates the
raw `type` argument (JavaScript string coercion) rather than the resolved
expected description, appends `" Using default:"`, and passes the resolved
default as extra log context (the context value is not part of the message
string and is not modelled).

The "Validate" section of the source body — computing `valid` and
`expectedType`, with the early `return false` governed by the `in` operator
and the `TypeError` on inherited-only keys — is split into
`checkTypeDispatch`. -/
def checkTypeDispatch (st : Registry) (value : JSValue) (type : JSValue) :
    Dispatch :=
  match type with
  | .func c => .resolved (instanceOfB value c) ("instance of " ++ c.name)
  | .str s =>
    if !(validatorsHasProp st s) then .earlyFalse
    else
      match lookupValidator st s with
      | some val => .resolved (val.function value) s
      | none => .typeError "validate is not a function"
  | other => .resolved false (jsToString other)

def checkType (st : Registry) (value : JSValue) (type : JSValue) (name : Option String)
    (defaultValue : DefaultV) (warnIf : JSValue → Bool) : Outcome :=
  match checkTypeDispatch st value type with
  | .earlyFalse => ⟨.ok (.bool false), [], st⟩
  | .typeError msg => ⟨.error (.typeError msg), [], st⟩
  | .resolved valid expectedType =>
    if valid then ⟨.ok value, [], st⟩
    else if dvIsUndefined defaultValue then
      ⟨.error (.validationError ⟨ValidationError.getMessage value expectedType name⟩), [], st⟩
    else
      let resolved := resolveDefault defaultValue value
      let warnings :=
        if warnIf value then
          [namePfx name ++ "Expected " ++ jsToString type ++ ", "
            ++ jsToString (valueType value) ++ " given. Using default:"]
        else []
      ⟨.ok resolved, warnings, st⟩

/-- The default `warnIf` argument of `checkType`: warn unless the invalid
value was `null` or `undefined`. -/
def defaultWarnIf : JSValue → Bool :=
  fun x => !(Lodash.isNil x)

/-- Source `parseNumberStrict`: numbers pass through (including NaN), only
strings are parsed, and a parsed string must survive the
parse-then-reserialize round trip exactly. -/
def parseNumberStrict (value : JSValue) : Option JSNumber :=
  match value with
  | .num n => some n
  | .str s =>
    let asNumber := parseFloat s
    if asNumber = JSNumber.nan then none
    else if numToString asNumber = s then some asNumber
    else none
  | _ => none

/-- Source `isPrimitive`: string, number or boolean. -/
def isPrimitive (value : JSValue) : Bool :=
  Lodash.isString value || Lodash.isNumber value || Lodash.isBoolean value

/-- Source `isClass`: any callable value counts as a class. -/
def isClass (v : JSValue) : Bool :=
  Lodash.isFunction v

/-- Source `isSubClass`: false for non-callable values; otherwise
`value.prototype instanceof Parent` — i.e. `Parent` is a strict superclass,
`Parent.id ∈ ancestors` — or (`includeIdentity` and) reference identity
with `Parent` (`===` on function objects, i.e. equal ids). -/
def isSubClass (value : JSValue) (parent : ClassV) (includeIdentity : Bool) : Bool :=
  if !(isClass value) then false
  else
    match value with
    | .func c => c.ancestors.contains parent.id || (includeIdentity && c.id == parent.id)
    | _ => false

/-- Source combinator `subClass`: the subclass check as a validator. -/
def subClass (parent : ClassV) (includeIdentity : Bool) : JSValue → Bool :=
  fun value => isSubClass value parent includeIdentity

/-- Source combinator `instanceOf`: the instance check as a validator. -/
def instanceOf (c : ClassV) : JSValue → Bool :=
  fun value => instanceOfB value c

/-- An "even number" validator mirroring the spec's example predicate
`v => typeof v === "number" && v % 2 === 0` (on the exact-rational model a
finite number with zero remainder mod 2, i.e. an even integer). -/
def isEvenNum : JSValue → Bool
  | .num (.finite q) => q.den == 1 && q.num % 2 == 0
  | _ => false

/-! ## Helper lemmas -/

/-- A plain default other than `undefined` fails the `=== undefined` test. -/
theorem dvIsUndefined_val (d : JSValue) (h : d ≠ .undef) :
    dvIsUndefined (.val d) = false := by
  cases d <;> simp_all [dvIsUndefined]

/-- Only the `undefined` plain default passes the `=== undefined` test. -/
theorem dvIsUndefined_eq (dv : DefaultV) (h : dvIsUndefined dv = true) :
    dv = .val .undef := by
  cases dv with
  | val v => cases v <;> simp_all [dvIsUndefined]
  | fn f => simp [dvIsUndefined] at h

/-- Unfolding of `checkType` when the dispatch step resolves. -/
theorem checkType_resolved (st : Registry) (v ty : JSValue) (nm : Option String)
    (dv : DefaultV) (wIf : JSValue → Bool) (valid : Bool) (exp : String)
    (h : checkTypeDispatch st v ty = .resolved valid exp) :
    checkType st v ty nm dv wIf
      = (if valid then ⟨.ok v, [], st⟩
         else if dvIsUndefined dv then
           ⟨.error (.validationError ⟨ValidationError.getMessage v exp nm⟩), [], st⟩
         else
           ⟨.ok (resolveDefault dv v),
             (if wIf v then
               [namePfx nm ++ "Expected " ++ jsToString ty ++ ", "
                 ++ jsToString (valueType v) ++ " given. Using default:"]
              else []), st⟩) := by
  simp only [checkType, h]

/-- A thrown `ValidationError` (not a `TypeError`) from `checkType` forces:
the default was `undefined`, and the dispatch step resolved with a failed
validity check. -/
theorem checkType_error_elim (st : Registry) (v ty : JSValue) (nm : Option String)
    (dv : DefaultV) (wIf : JSValue → Bool) (err : ValidationError)
    (h : (checkType st v ty nm dv wIf).result = .error (.validationError err)) :
    dvIsUndefined dv = true
    ∧ ∃ exp, checkTypeDispatch st v ty = .resolved false exp := by
  cases hd : checkTypeDispatch st v ty with
  | earlyFalse => rw [checkType, hd] at h; simp at h
  | typeError msg => rw [checkType, hd] at h; simp at h
  | resolved valid exp =>
    rw [checkType_resolved st v ty nm dv wIf valid exp hd] at h
    by_cases h1 : valid
    · simp [h1] at h
    · by_cases h2 : dvIsUndefined dv
      · refine ⟨h2, exp, ?_⟩
        simpa [Bool.not_eq_true] using h1
      · simp [h1, h2] at h

/-! ## Claim theorems -/

/-- Claim C2: when the predicate accepts the value, `check` returns the value
unchanged, emits no warning, throws nothing and leaves the registry
untouched; a second identical call on the resulting state produces the same
outcome again. -/
theorem check_pass_through (st : Registry) (v : JSValue) (p : JSValue → Bool)
    (e : String) (n : Option String) (o : Option CheckOptions) (h : p v = true) :
    check st v p e n o = ⟨.ok v, [], st⟩
    ∧ check (check st v p e n o).state v p e n o = check st v p e n o := by
  have h1 : check st v p e n o = ⟨.ok v, [], st⟩ := by simp [check, h]
  exact ⟨h1, by rw [h1]; exact h1⟩

/-- Witness for C2 at the concrete accepted value `5`. -/
theorem check_pass_through_witness :
    check initialValidators (.num (.finite 5)) isPrimitive "primitive" none none
      = ⟨.ok (.num (.finite 5)), [], initialValidators⟩
    ∧ check (check initialValidators (.num (.finite 5)) isPrimitive "primitive" none none).state
        (.num (.finite 5)) isPrimitive "primitive" none none
      = check initialValidators (.num (.finite 5)) isPrimitive "primitive" none none :=
  check_pass_through initialValidators (.num (.finite 5)) isPrimitive "primitive" none none rfl

/-- Counterexample to C3 as stated: `"toString"` is not a key in the
registry, yet `checkType` does not return `false` — the `in`-operator guard
finds the inherited `Object.prototype.toString`, the early return is
skipped, and calling the `undefined` field `validators["toString"].function`
throws a `TypeError`. -/
theorem checkType_unregistered_counterexample :
    lookupValidator initialValidators "toString" = none
    ∧ (checkType initialValidators (.str "x") (.str "toString") (some "n")
        (.val .undef) defaultWarnIf).result
      = .error (.typeError "validate is not a function") :=
  ⟨rfl, rfl⟩

/-- Claim C3 (amended): a string type key with no registry entry makes
`checkType` return the boolean `false` immediately — no throw, no warning,
no use of the default, no registry change — unless the key is a property
name inherited from `Object.prototype` (e.g. `"toString"`), in which case
the `in`-operator guard passes and `checkType` instead throws a `TypeError`
from calling the undefined validator (still with no warning, no use of the
default, and no registry change). -/
theorem checkType_unregistered (st : Registry) (v : JSValue) (s : String)
    (nm : Option String) (dv : DefaultV) (wIf : JSValue → Bool)
    (h : lookupValidator st s = none) :
    checkType st v (.str s) nm dv wIf
      = (if objectPrototypeKeys.contains s
         then ⟨.error (.typeError "validate is not a function"), [], st⟩
         else ⟨.ok (.bool false), [], st⟩) := by
  by_cases hi : s ∈ objectPrototypeKeys <;>
    simp [checkType, checkTypeDispatch, validatorsHasProp, h, hi]

/-- Witness for C3 (amended): `"nonexistent-key"` returns `false` and the
inherited name `"toString"` throws a `TypeError`, both against the seeded
registry. -/
theorem checkType_unregistered_witness :
    checkType initialValidators (.str "anything") (.str "nonexistent-key") (some "n")
        (.val (.num (.finite 1))) defaultWarnIf
      = ⟨.ok (.bool false), [], initialValidators⟩
    ∧ checkType initialValidators (.str "x") (.str "toString") (some "n")
        (.val .undef) defaultWarnIf
      = ⟨.error (.typeError "validate is not a function"), [], initialValidators⟩ := by
  constructor
  · have h := checkType_unregistered initialValidators (.str "anything") "nonexistent-key"
      (some "n") (.val (.num (.finite 1))) defaultWarnIf rfl
    rw [h, if_neg (by decide)]
  · have h := checkType_unregistered initialValidators (.str "x") "toString"
      (some "n") (.val .undef) defaultWarnIf rfl
    rw [h, if_pos (by decide)]

/-- Claim C8: for a class-like value (whose prototype chain is acyclic, so a
class is not its own strict ancestor), `isSubClass X X true` holds and
`isSubClass X X false` fails; any non-callable value is a subclass of
nothing. -/
theorem isSubClass_identity (x : ClassV) (hacyc : x.id ∉ x.ancestors)
    (v : JSValue) (parent : ClassV) (b : Bool) (hnc : isClass v = false) :
    (isSubClass (.func x) x true = true ∧ isSubClass (.func x) x false = false)
    ∧ isSubClass v parent b = false := by
  refine ⟨⟨?_, ?_⟩, ?_⟩
  · simp [isSubClass, isClass, Lodash.isFunction]
  · simp [isSubClass, isClass, Lodash.isFunction, hacyc]
  · cases v <;> simp_all [isSubClass, isClass, Lodash.isFunction]

/-- Witness for C8 at a concrete class and the non-callable `null`. -/
theorem isSubClass_identity_witness :
    (isSubClass (.func ⟨0, "X", "class X", []⟩) ⟨0, "X", "class X", []⟩ true = true
     ∧ isSubClass (.func ⟨0, "X", "class X", []⟩) ⟨0, "X", "class X", []⟩ false = false)
    ∧ isSubClass .null ⟨0, "X", "class X", []⟩ true = false :=
  isSubClass_identity ⟨0, "X", "class X", []⟩ (by simp) .null ⟨0, "X", "class X", []⟩ true rfl

/-- Claim C4: `ValidationError.getMessage` is a pure formatting function —
with no name the prefix is omitted entirely, a callable value is rendered by
its function name — the error thrown by `check` carries exactly this
message, and the concrete example produces
`"x: Expected primitive, bad given."`. -/
theorem getMessage_format (st : Registry) (v : JSValue) (p : JSValue → Bool)
    (e : String) (n : Option String) (t : String) (c : ClassV)
    (h : p v = false) :
    (check st v p e n none).result
      = .error (.validationError ⟨ValidationError.getMessage v e n⟩)
    ∧ ValidationError.getMessage v t none
        = "Expected " ++ t ++ ", " ++ jsToString (valueType v) ++ " given."
    ∧ ValidationError.getMessage (.func c) t n
        = namePfx n ++ "Expected " ++ t ++ ", " ++ c.name ++ " given."
    ∧ ValidationError.getMessage (.str "bad") "primitive" (some "x")
        = "x: Expected primitive, bad given." := by
  refine ⟨?_, ?_, ?_, by decide⟩
  · simp [check, h]
  · simp [ValidationError.getMessage, namePfx]
  · simp [ValidationError.getMessage, valueType, jsToString]

/-- Witness for C4: a failing predicate stub on `"bad"` with name `"x"`. -/
theorem getMessage_format_witness :
    (check initialValidators (.str "bad") (fun _ => false) "primitive" (some "x") none).result
      = .error (.validationError ⟨"x: Expected primitive, bad given."⟩)
    ∧ ValidationError.getMessage (.str "bad") "other" none
      = "Expected " ++ "other" ++ ", " ++ jsToString (valueType (.str "bad")) ++ " given." :=
  have h := getMessage_format initialValidators (.str "bad") (fun _ => false)
    "primitive" (some "x") "other" ⟨0, "X", "class X", []⟩ rfl
  ⟨h.1, h.2.1⟩

/-- Claim C5: `parseNumberStrict` passes numbers through unchanged, maps any
non-string non-number to the no-match sentinel, and accepts a string exactly
when it parses to a non-NaN float whose re-serialization reproduces the
string; concretely `"007"` and `"abc"` are rejected while `"7"` and `7`
yield `7`. -/
theorem parseNumberStrict_spec (n : JSNumber) (s : String) (q : JSNumber) (v : JSValue)
    (hns : Lodash.isString v = false) (hnn : Lodash.isNumber v = false) :
    parseNumberStrict (.num n) = some n
    ∧ parseNumberStrict v = none
    ∧ (parseNumberStrict (.str s) = some q
        ↔ parseFloat s = q ∧ q ≠ .nan ∧ numToString q = s)
    ∧ parseNumberStrict (.str "007") = none
    ∧ parseNumberStrict (.str "7") = some (.finite 7)
    ∧ parseNumberStrict (.num (.finite 7)) = some (.finite 7)
    ∧ parseNumberStrict (.str "abc") = none := by
  refine ⟨rfl, ?_, ?_, by decide, by decide, rfl, by decide⟩
  · cases v <;> simp_all [parseNumberStrict, Lodash.isString, Lodash.isNumber]
  · constructor
    · intro h
      by_cases h1 : parseFloat s = JSNumber.nan
      · simp [parseNumberStrict, h1] at h
      · by_cases h2 : numToString (parseFloat s) = s
        · simp [parseNumberStrict, h1, h2] at h
          exact ⟨h, h ▸ h1, h ▸ h2⟩
        · simp [parseNumberStrict, h1, h2] at h
    · rintro ⟨hq, hqn, hs⟩
      subst hq
      simp [parseNumberStrict, hqn, hs]

/-- Witness for C5: the non-string non-number case at `undefined`. -/
theorem parseNumberStrict_spec_witness :
    parseNumberStrict .undef = none
    ∧ parseNumberStrict (.str "007") = none
    ∧ parseNumberStrict (.str "7") = some (.finite 7)
    ∧ parseNumberStrict (.str "abc") = none :=
  have h := parseNumberStrict_spec .nan "7" (.finite 7) .undef rfl rfl
  ⟨h.2.1, h.2.2.2.1, h.2.2.2.2.1, h.2.2.2.2.2.2⟩

/-- Claim C6: when `check` substitutes a (truthy) default for an invalid
value, a warning is emitted iff `warnIf value` when `warnIf` is supplied,
else iff the value is neither `null` nor `undefined`; the concrete call with
value `undefined` and default `1` returns `1` with no warning. -/
theorem check_warn_policy (st : Registry) (v : JSValue) (p : JSValue → Bool)
    (e : String) (n : Option String) (dv : DefaultV) (w : Option (JSValue → Bool))
    (hfail : p v = false) (htruthy : dvTruthy dv = true) :
    (check st v p e n (some ⟨some dv, w⟩)).warnings
      = (if (w.getD (fun x => !(Lodash.isNil x))) v
          then [ValidationError.getMessage v e n] else [])
    ∧ (check st v p e n (some ⟨some dv, w⟩)).result = .ok (resolveDefault dv v)
    ∧ check initialValidators .undef isPrimitive "primitive" (some "x")
        (some ⟨some (.val (.num (.finite 1))), none⟩)
      = ⟨.ok (.num (.finite 1)), [], initialValidators⟩ := by
  refine ⟨?_, ?_, rfl⟩ <;> simp [check, hfail, htruthy]

/-- Witness for C6: value `null` with a supplied `warnIf` that fires. -/
theorem check_warn_policy_witness :
    (check initialValidators .null (fun _ => false) "thing" none
        (some ⟨some (.val (.str "d")), some (fun _ => true)⟩)).warnings
      = [ValidationError.getMessage .null "thing" none]
    ∧ (check initialValidators .null (fun _ => false) "thing" none
        (some ⟨some (.val (.str "d")), some (fun _ => true)⟩)).result = .ok (.str "d") :=
  have h := check_warn_policy initialValidators .null (fun _ => false) "thing" none
    (.val (.str "d")) (some (fun _ => true)) rfl rfl
  ⟨h.1, h.2.1⟩

/-- Claim C1: a falsy default (`0`, `""`, `false`) makes `check` throw
exactly as if no default were provided, whereas `checkType` honors every
default other than `undefined` (returning it instead of throwing), and
`checkType` throws only when the default is `undefined`. -/
theorem default_handling_asymmetry (st : Registry) (v : JSValue) (p : JSValue → Bool)
    (e : String) (n : Option String) (d : JSValue) (w : Option (JSValue → Bool))
    (ty : JSValue) (nm : Option String) (dv : DefaultV) (wIf : JSValue → Bool) :
    (p v = false → truthy d = false →
      check st v p e n (some ⟨some (.val d), w⟩)
        = ⟨.error (.validationError ⟨ValidationError.getMessage v e n⟩), [], st⟩
      ∧ check st v p e n none
        = ⟨.error (.validationError ⟨ValidationError.getMessage v e n⟩), [], st⟩)
    ∧ (∀ err : ValidationError,
        (checkType st v ty nm (.val .undef) wIf).result = .error (.validationError err) →
        ∀ d2 : JSValue, d2 ≠ .undef →
          (checkType st v ty nm (.val d2) wIf).result = .ok d2)
    ∧ (∀ err : ValidationError,
        (checkType st v ty nm dv wIf).result = .error (.validationError err) →
          dv = .val .undef) := by
  refine ⟨?_, ?_, ?_⟩
  · intro hfail hfalsy
    constructor <;> simp [check, hfail, dvTruthy, hfalsy]
  · intro err herr d2 hd2
    obtain ⟨-, exp, hve⟩ := checkType_error_elim st v ty nm (.val .undef) wIf err herr
    rw [checkType_resolved st v ty nm (.val d2) wIf false exp hve]
    simp [dvIsUndefined_val d2 hd2, resolveDefault]
  · intro err herr
    exact dvIsUndefined_eq dv (checkType_error_elim st v ty nm dv wIf err herr).1

/-- Witness for C1: `check` with falsy default `0` throws; `checkType` with
default `false` returns `false` where the same call with default
`undefined` throws. -/
theorem default_handling_asymmetry_witness :
    (check initialValidators (.str "bad") (fun _ => false) "primitive" (some "x")
        (some ⟨some (.val (.num (.finite 0))), none⟩)
      = ⟨.error (.validationError ⟨"x: Expected primitive, bad given."⟩), [],
          initialValidators⟩)
    ∧ (checkType initialValidators (.num (.finite 3)) (.str "string") (some "n")
        (.val (.bool false)) defaultWarnIf).result = .ok (.bool false) := by
  constructor
  · exact (default_handling_asymmetry initialValidators (.str "bad") (fun _ => false)
      "primitive" (some "x") (.num (.finite 0)) none .undef none (.val .undef)
      defaultWarnIf).1 rfl rfl |>.1
  · exact (default_handling_asymmetry initialValidators (.num (.finite 3)) (fun _ => false)
      "" none .undef none (.str "string") (some "n") (.val .undef)
      defaultWarnIf).2.1 ⟨"n: Expected string, 3 given."⟩ rfl (.bool false) (fun h => nomatch h)

/-- Claim C7: `setValidator k p n?` maps key `k` to the validator with
display name `n` (defaulting to `k`) and predicate `p`, overwriting any
previous entry (the hypothesis-free lookup equation holds for every prior
registry); a subsequent `checkType` on key `k` runs `p`: it passes the value
through when `p` accepts and, with no default, throws when `p` rejects. -/
theorem setValidator_registers (st : Registry) (k : String) (p : JSValue → Bool)
    (dn : Option String) (v : JSValue) (nm : Option String) (wIf : JSValue → Bool) :
    lookupValidator (setValidator st k p dn) k = some ⟨dn.getD k, p⟩
    ∧ (p v = true →
        checkType (setValidator st k p dn) v (.str k) nm (.val .undef) wIf
          = ⟨.ok v, [], setValidator st k p dn⟩)
    ∧ (p v = false →
        checkType (setValidator st k p dn) v (.str k) nm (.val .undef) wIf
          = ⟨.error (.validationError ⟨ValidationError.getMessage v k nm⟩), [],
              setValidator st k p dn⟩) := by
  have hl : lookupValidator (setValidator st k p dn) k = some ⟨dn.getD k, p⟩ := by
    simp [lookupValidator, setValidator, List.lookup]
  refine ⟨hl, ?_, ?_⟩ <;> intro hp <;>
    simp [checkType, checkTypeDispatch, validatorsHasProp, hl, hp, dvIsUndefined]

/-- Witness for C7: an `"even"` validator accepts `4` and rejects `3`. -/
theorem setValidator_registers_witness :
    (isEvenNum (.num (.finite 4)) = true
      ∧ checkType (setValidator initialValidators "even" isEvenNum none)
          (.num (.finite 4)) (.str "even") (some "n") (.val .undef) defaultWarnIf
        = ⟨.ok (.num (.finite 4)), [], setValidator initialValidators "even" isEvenNum none⟩)
    ∧ (isEvenNum (.num (.finite 3)) = false
      ∧ checkType (setValidator initialValidators "even" isEvenNum none)
          (.num (.finite 3)) (.str "even") (some "n") (.val .undef) defaultWarnIf
        = ⟨.error (.validationError
              ⟨ValidationError.getMessage (.num (.finite 3)) "even" (some "n")⟩), [],
            setValidator initialValidators "even" isEvenNum none⟩) := by
  constructor
  · exact ⟨by decide, (setValidator_registers initialValidators "even" isEvenNum none
      (.num (.finite 4)) (some "n") defaultWarnIf).2.1 (by decide)⟩
  · exact ⟨by decide, (setValidator_registers initialValidators "even" isEvenNum none
      (.num (.finite 3)) (some "n") defaultWarnIf).2.2 (by decide)⟩

/-- Counterexample to C9 as stated: the warning emitted when `checkType`
substitutes a default is not equal to the section-4.4 message with the raw
type inlined — the code appends `" Using default:"` to it. -/
theorem checkType_warn_message_counterexample :
    (checkType initialValidators (.num (.finite 3)) (.str "string") (some "n")
        (.val (.str "fallback")) defaultWarnIf).warnings
      ≠ [ValidationError.getMessage (.num (.finite 3)) "string" (some "n")] := by
  decide

/-- Claim C9 (amended): when `checkType` substitutes a default for an invalid
value and the warn decision is true, the warning message equals the
section-4.4 format with the raw `type` argument (string-coerced) inlined in
place of the resolved expected-description, followed by `" Using default:"`
(the resolved default itself is passed as extra log context); `checkType`
then returns the resolved default (a callable default is first applied to
the value). -/
theorem checkType_warn_message (st : Registry) (v ty : JSValue) (nm : Option String)
    (dv : DefaultV) (wIf : JSValue → Bool) (err : ValidationError)
    (hthrows : (checkType st v ty nm (.val .undef) wIf).result
      = .error (.validationError err))
    (hdv : dvIsUndefined dv = false) (hwarn : wIf v = true) :
    checkType st v ty nm dv wIf
      = ⟨.ok (resolveDefault dv v),
          [ValidationError.getMessage v (jsToString ty) nm ++ " Using default:"], st⟩ := by
  obtain ⟨-, exp, hve⟩ := checkType_error_elim st v ty nm (.val .undef) wIf err hthrows
  rw [checkType_resolved st v ty nm dv wIf false exp hve]
  simp [hdv, hwarn, ValidationError.getMessage, String.append_assoc]

/-- Witness for C9 (amended) at a concrete invalid value and string key. -/
theorem checkType_warn_message_witness :
    checkType initialValidators (.num (.finite 3)) (.str "string") (some "n")
        (.val (.str "fallback")) defaultWarnIf
      = ⟨.ok (.str "fallback"),
          [ValidationError.getMessage (.num (.finite 3)) "string" (some "n")
            ++ " Using default:"], initialValidators⟩ :=
  checkType_warn_message initialValidators (.num (.finite 3)) (.str "string") (some "n")
    (.val (.str "fallback")) defaultWarnIf ⟨"n: Expected string, 3 given."⟩ rfl rfl rfl

/-- Claim C10: when the `type` argument of `checkType` is neither callable
nor a string, the value is treated as invalid regardless of what it is: the
pass-through branch is never taken, so the call throws when the default is
`undefined` and otherwise returns the resolved default. -/
theorem checkType_nonclass_nonstring (st : Registry) (v ty : JSValue)
    (nm : Option String) (dv : DefaultV) (wIf : JSValue → Bool)
    (hnc : Lodash.isFunction ty = false) (hns : Lodash.isString ty = false) :
    (checkType st v ty nm dv wIf).result
      = (if dvIsUndefined dv
          then .error (.validationError ⟨ValidationError.getMessage v (jsToString ty) nm⟩)
          else .ok (resolveDefault dv v)) := by
  cases ty <;>
    simp_all [checkType, checkTypeDispatch, Lodash.isFunction, Lodash.isString] <;>
    by_cases h : dvIsUndefined dv <;>
    simp [h]

/-- Witness for C10: a numeric `type` argument throws for any value when no
default is given. -/
theorem checkType_nonclass_nonstring_witness :
    (checkType initialValidators (.num (.finite 5)) (.num (.finite 0)) (some "n")
        (.val .undef) defaultWarnIf).result
      = .error (.validationError ⟨ValidationError.getMessage (.num (.finite 5))
          (jsToString (.num (.finite 0))) (some "n")⟩) := by
  have h := checkType_nonclass_nonstring initialValidators (.num (.finite 5))
    (.num (.finite 0)) (some "n") (.val .undef) defaultWarnIf rfl rfl
  simpa using h

end CommonValidation
